import Mathlib

/-!
Verification of the TEIF invoice validator (`src/main.js`) against its
specification. The validator walks a dynamically-typed nested document,
so the embedding models JavaScript values directly: a `JSVal` tree with
`undefined`/`null`, booleans, numbers (including NaN), strings, arrays and
objects. Property access on a nullish base and calling a missing `find`
method are TypeErrors, modelled with `Except String`; every other part of
the validator is total. Each rule group of the class becomes a function
from the document to the list of messages it pushes, in push order, and
`validate` concatenates them in the order the source runs the groups
(lines 35 to 40).
-/

namespace TEIF

/-- A JavaScript number as the validator uses one: NaN or a finite value.
Finite values are modelled as rationals, which is exact for every operation
the validator performs on them (comparisons against 0 and truthiness). -/
inductive JSNum where
  | nan : JSNum
  | fin : ℚ → JSNum

/-- A JavaScript value of the document tree: the validator's documents are
JSON-like data (no functions), plus `undefined` for absent members. -/
inductive JSVal where
  | undefined : JSVal
  | null : JSVal
  | bool : Bool → JSVal
  | num : JSNum → JSVal
  | str : String → JSVal
  | arr : List JSVal → JSVal
  | obj : List (String × JSVal) → JSVal

/-- `undefined` and `null`: the values on which member access throws. -/
def isNullish : JSVal → Bool
  | .undefined => true
  | .null => true
  | _ => false

/-- JavaScript truthiness: `undefined`, `null`, `false`, `0`, `NaN` and the
empty string are falsy; every array and object is truthy. -/
def truthy : JSVal → Bool
  | .undefined => false
  | .null => false
  | .bool b => b
  | .num .nan => false
  | .num (.fin q) => decide (q ≠ 0)
  | .str s => decide (s ≠ "")
  | .arr _ => true
  | .obj _ => true

/-- Member access `base.k` on a non-nullish base: objects look the field up
(the documents' objects have unique keys, the first binding wins), arrays
expose `length`, and the remaining primitives have none of the fields the
validator reads, hence `undefined`. -/
def memAccess : JSVal → String → JSVal
  | .obj fields, k => (((fields.find? (fun p => p.1 == k)).map Prod.snd).getD .undefined)
  | .arr xs, k => if k == "length" then .num (.fin xs.length) else .undefined
  | _, _ => .undefined

/-- Plain member access `base.k`: a TypeError when the base is nullish. -/
def getMem (v : JSVal) (k : String) : Except String JSVal :=
  if isNullish v then .error "TypeError: cannot read properties of a nullish value"
  else .ok (memAccess v k)

/-- Optional chaining `base?.k`: a nullish base short-circuits to `undefined`. -/
def optMem (v : JSVal) (k : String) : JSVal :=
  if isNullish v then .undefined else memAccess v k

/-- Optional index access `base?.[i]`: nullish short-circuits; arrays index,
objects look the decimal key up, strings yield the character, the rest give
`undefined`. -/
def optIndex (v : JSVal) (i : Nat) : JSVal :=
  match v with
  | .undefined => .undefined
  | .null => .undefined
  | .arr xs => xs.getD i .undefined
  | .obj fields => memAccess (.obj fields) (toString i)
  | .str s => ((s.data.get? i).map (fun c => JSVal.str (String.mk [c]))).getD .undefined
  | _ => .undefined

/-- Strict equality `v === s` against a string literal: only a string with
the same characters compares equal. -/
def eqStr (v : JSVal) (s : String) : Bool :=
  match v with
  | .str t => t == s
  | _ => false

/-- `typeof v === "number"`: true for NaN as well. -/
def isNumber : JSVal → Bool
  | .num _ => true
  | _ => false

/-- `Array.isArray(v)`. The rule groups' guards `!x || !Array.isArray(x)`
reduce to this test alone, since every array is truthy. -/
def isArray : JSVal → Bool
  | .arr _ => true
  | _ => false

/-- `v <= 0` as the validator evaluates it behind its `typeof` guard:
NaN compares false against everything. -/
def le0 : JSVal → Bool
  | .num .nan => false
  | .num (.fin q) => decide (q ≤ 0)
  | _ => false

/-- `v < 0` as the validator evaluates it behind its `typeof` guard:
NaN compares false against everything. -/
def lt0 : JSVal → Bool
  | .num .nan => false
  | .num (.fin q) => decide (q < 0)
  | _ => false

/-- Line 16's regex `taxIdRegex` as a whole-string matcher: seven digits,
an uppercase letter, a slash, an uppercase letter, a slash, an uppercase
letter, a slash, three digits (JavaScript anchors `^`/`$` without the `m`
flag match only the very ends of the string). -/
def taxIdTest (s : String) : Bool :=
  match s.data with
  | [d1, d2, d3, d4, d5, d6, d7, u1, k1, u2, k2, u3, k3, e1, e2, e3] =>
      d1.isDigit && d2.isDigit && d3.isDigit && d4.isDigit && d5.isDigit &&
      d6.isDigit && d7.isDigit &&
      u1.isUpper && k1 == '/' && u2.isUpper && k2 == '/' &&
      u3.isUpper && k3 == '/' &&
      e1.isDigit && e2.isDigit && e3.isDigit
  | _ => false

/-- `this.taxIdRegex.test(value)` on a document value. The identifier values
the engine tests in the claims are strings; a non-string value is modelled as
not matching (its JavaScript string coercion is never pattern-shaped for the
documents at hand). -/
def jsTaxIdTest : JSVal → Bool
  | .str s => taxIdTest s
  | _ => false

/-- String interpolation of a document value into a message. Exact for
strings, which are the only values the proved statements interpolate. -/
def display : JSVal → String
  | .str s => s
  | .num .nan => "NaN"
  | .num (.fin q) => toString q
  | .bool true => "true"
  | .bool false => "false"
  | .null => "null"
  | .undefined => "undefined"
  | .arr _ => "[array]"
  | .obj _ => "[object Object]"

/-- `Array.prototype.find`: first-match scan; the callback may throw. -/
def jsFind (p : JSVal → Except String Bool) : List JSVal → Except String JSVal
  | [] => .ok .undefined
  | x :: xs => do
      if ← p x then .ok x else jsFind p xs

/-- `base?.find(cb)`: nullish short-circuits to `undefined`; on any other
non-array value `find` is missing (the documents' objects hold data, not
functions), so the call is a TypeError. -/
def jsCallFind (v : JSVal) (p : JSVal → Except String Bool) : Except String JSVal :=
  match v with
  | .undefined => .ok .undefined
  | .null => .ok .undefined
  | .arr xs => jsFind p xs
  | _ => .error "TypeError: find is not a function"

/-- Lines 52 to 59: `_validateRoot`. -/
def _validateRoot (invoice : JSVal) : Except String (List String) := do
  let version ← getMem invoice "version"
  let agency ← getMem invoice "controlingAgency"
  return (if eqStr version "2.0" then [] else ["Root: TEIF version must be '2.0'."]) ++
    (if eqStr agency "TTN" then [] else ["Root: 'controlingAgency' must be 'TTN'."])

/-- Lines 68 to 73: the sender block of `_validateHeader` (total: `header`
is truthy, hence non-nullish, when it runs). -/
def senderBlock (header : JSVal) : List String :=
  if !truthy (memAccess header "MessageSenderIdentifier")
      || !truthy (memAccess (memAccess header "MessageSenderIdentifier") "value") then
    ["Header: Sender 'MessageSenderIdentifier' is missing or empty."]
  else if !jsTaxIdTest (memAccess (memAccess header "MessageSenderIdentifier") "value") then
    ["Header: Sender Tax ID '" ++
      display (memAccess (memAccess header "MessageSenderIdentifier") "value") ++
      "' has an invalid format."]
  else []

/-- Lines 75 to 80: the receiver block of `_validateHeader`. -/
def receiverBlock (header : JSVal) : List String :=
  if !truthy (memAccess header "MessageReceiverIdentifier")
      || !truthy (memAccess (memAccess header "MessageReceiverIdentifier") "value") then
    ["Header: Receiver 'MessageReceiverIdentifier' is missing or empty."]
  else if !jsTaxIdTest (memAccess (memAccess header "MessageReceiverIdentifier") "value") then
    ["Header: Receiver Tax ID '" ++
      display (memAccess (memAccess header "MessageReceiverIdentifier") "value") ++
      "' has an invalid format."]
  else []

/-- Lines 61 to 81: `_validateHeader`: a falsy header records one message
and returns; otherwise the sender and receiver blocks run independently. -/
def _validateHeader (invoice : JSVal) : Except String (List String) := do
  let header ← getMem invoice "InvoiceHeader"
  if !truthy header then
    return ["Structure: 'InvoiceHeader' object is missing."]
  return senderBlock header ++ receiverBlock header

/-- Lines 83 to 95: `_validateBgmAndDtm`: the `Bgm` checks are independent,
and the issue-date search runs over `Dtm?.find`. -/
def _validateBgmAndDtm (invoice : JSVal) : Except String (List String) := do
  let bgm ← getMem invoice "Bgm"
  let dtm ← getMem invoice "Dtm"
  let issueDate ← jsCallFind dtm (fun d => (getMem d "functionCode").map (fun w => eqStr w "I-31"))
  return (if !truthy bgm || !truthy (memAccess bgm "DocumentIdentifier") then
      ["Body: 'Bgm.DocumentIdentifier' (Invoice ID) is missing."] else []) ++
    (if eqStr (optMem (optMem bgm "DocumentType") "code") "I-11" then []
      else ["Body: 'Bgm.DocumentType.code' must be 'I-11' for an invoice."]) ++
    (if truthy issueDate then []
      else ["Body: 'Dtm' entry with functionCode 'I-31' (Issue Date) is missing."])

/-- Lines 97 to 117: `_validatePartners`: a missing, non-array or short
collection records one message and returns; otherwise the supplier and the
buyer are searched by function code and each found partner's `Nad` block is
checked. -/
def _validatePartners (invoice : JSVal) : Except String (List String) := do
  let psec ← getMem invoice "PartnerSection"
  match optMem psec "PartnerDetails" with
  | .arr partners =>
      if partners.length < 2 then
        return ["Partners: 'PartnerSection.PartnerDetails' must be an array with at least a supplier and a buyer."]
      else do
        let supplier ← jsFind (fun p => (getMem p "functionCode").map (fun w => eqStr w "I-62")) partners
        let buyer ← jsFind (fun p => (getMem p "functionCode").map (fun w => eqStr w "I-61")) partners
        return (if !truthy supplier then
            ["Partners: A supplier with functionCode 'I-62' is required."]
          else if !truthy (optMem (optMem (memAccess supplier "Nad") "PartnerIdentifier") "value")
              || !truthy (optMem (optMem (memAccess supplier "Nad") "PartnerNom") "value") then
            ["Partners: Supplier is missing 'PartnerIdentifier' or 'PartnerNom'."]
          else []) ++
          (if !truthy buyer then
            ["Partners: A buyer with functionCode 'I-61' is required."]
          else if !truthy (optMem (optMem (memAccess buyer "Nad") "PartnerIdentifier") "value")
              || !truthy (optMem (optMem (memAccess buyer "Nad") "PartnerNom") "value") then
            ["Partners: Buyer is missing 'PartnerIdentifier' or 'PartnerNom'."]
          else [])
  | _ =>
      return ["Partners: 'PartnerSection.PartnerDetails' must be an array with at least a supplier and a buyer."]

/-- Line 127 to 129 of the forEach body: the item identifier / description
check of one line; the first access throws for a nullish line element. -/
def identifierCheck (line : JSVal) (index : Nat) : Except String (List String) := do
  let itemId ← getMem line "ItemIdentifier"
  return (if !truthy itemId || !truthy (memAccess line "Description") then
      ["Line " ++ toString (index + 1) ++ ": 'ItemIdentifier' or 'Description' is missing."]
    else [])

/-- The messages of `identifierCheck` for a non-nullish line. -/
def identifierMsgs (line : JSVal) (index : Nat) : List String :=
  if !truthy (memAccess line "ItemIdentifier") || !truthy (memAccess line "Description") then
    ["Line " ++ toString (index + 1) ++ ": 'ItemIdentifier' or 'Description' is missing."]
  else []

/-- Lines 130 to 132 of the forEach body: `Quantity` must be of number type
and positive (NaN passes the type test and compares false against 0). -/
def quantityCheck (line : JSVal) (index : Nat) : List String :=
  if !isNumber (memAccess line "Quantity") || le0 (memAccess line "Quantity") then
    ["Line " ++ toString (index + 1) ++ ": 'Quantity' must be a positive number."]
  else []

/-- Lines 133 to 135 of the forEach body: `UnitPrice` must be of number type
and non-negative (NaN passes the type test and compares false against 0). -/
def unitPriceCheck (line : JSVal) (index : Nat) : List String :=
  if !isNumber (memAccess line "UnitPrice") || lt0 (memAccess line "UnitPrice") then
    ["Line " ++ toString (index + 1) ++ ": 'UnitPrice' must be a non-negative number."]
  else []

/-- Lines 126 to 136: one iteration of the forEach over the line array. -/
def lineChecks (line : JSVal) (index : Nat) : Except String (List String) := do
  let e1 ← identifierCheck line index
  return e1 ++ quantityCheck line index ++ unitPriceCheck line index

/-- The forEach of lines 126 to 136 over the whole line array, threading the
0-based index (messages are 1-based). -/
def forEachLines : List JSVal → Nat → Except String (List String)
  | [], _ => .ok []
  | l :: ls, i => do
      let e ← lineChecks l i
      let rest ← forEachLines ls (i + 1)
      return e ++ rest

/-- What the forEach records for a list of non-nullish lines starting at
0-based index `i`: the pure counterpart of `forEachLines`. -/
def allLineMsgs : List JSVal → Nat → List String
  | [], _ => []
  | l :: ls, i => identifierMsgs l i ++ quantityCheck l i ++ unitPriceCheck l i ++ allLineMsgs ls (i + 1)

/-- Lines 119 to 137: `_validateLines`: a missing, non-array or empty line
collection records one message and returns; otherwise every line is visited
in order. -/
def _validateLines (invoice : JSVal) : Except String (List String) := do
  let sec ← getMem invoice "LinSection"
  match optMem (optIndex sec 0) "Lin" with
  | .arr lines =>
      if lines.length == 0 then
        return ["Lines: 'LinSection[0].Lin' must be an array with at least one line item."]
      else forEachLines lines 0
  | _ =>
      return ["Lines: 'LinSection[0].Lin' must be an array with at least one line item."]

/-- Lines 156 to 161: the tax-summary part of `_validateTotals`, as a
function of the retrieved `InvoiceTax` value (total: a truthy value is
non-nullish). -/
def taxChecks (taxInfo : JSVal) : List String :=
  if !truthy taxInfo then ["Tax: 'InvoiceTax' object is missing."]
  else if !eqStr (memAccess taxInfo "TaxTypeCode") "I-1602" then
    ["Tax: 'TaxTypeCode' for main tax should be 'I-1602' (TVA)."]
  else []

/-- Lines 139 to 162: `_validateTotals`: a missing or non-array amount
collection records one message and returns from the whole group (line 143),
skipping the two total searches and the tax checks alike; otherwise both
totals are searched and then the tax summary is checked. -/
def _validateTotals (invoice : JSVal) : Except String (List String) := do
  let moa ← getMem invoice "InvoiceMoa"
  match optMem moa "AmountDetails" with
  | .arr amounts => do
      let totalHT ← jsFind (fun a => (getMem a "amountTypeCode").map (fun w => eqStr w "I-176")) amounts
      let totalTTC ← jsFind (fun a => (getMem a "amountTypeCode").map (fun w => eqStr w "I-180")) amounts
      let taxInfo ← getMem invoice "InvoiceTax"
      return (if truthy totalHT then [] else ["Totals: Amount with type 'I-176' (Total HT) is missing."]) ++
        (if truthy totalTTC then [] else ["Totals: Amount with type 'I-180' (Total TTC) is missing."]) ++
        taxChecks taxInfo
  | _ =>
      return ["Totals: 'InvoiceMoa.AmountDetails' array is missing."]

/-- The validator instance: `this.invoice` and `this.errors`. -/
structure TEIFValidator where
  invoice : JSVal
  errors : List String

/-- The value `validate()` returns: lines 42 to 45. -/
structure Report where
  isValid : Bool
  errors : List String

/-- The six rule groups in the order lines 35 to 40 run them, each returning
the messages it pushes; the shared accumulator is modelled by concatenating
them in push order. -/
def runGroups (invoice : JSVal) : Except String (List String) := do
  let e1 ← _validateRoot invoice
  let e2 ← _validateHeader invoice
  let e3 ← _validateBgmAndDtm invoice
  let e4 ← _validatePartners invoice
  let e5 ← _validateLines invoice
  let e6 ← _validateTotals invoice
  return e1 ++ e2 ++ e3 ++ e4 ++ e5 ++ e6

/-- Lines 32 to 46: `validate()`. Line 33 resets `this.errors`, so the
result depends only on the stored document and the new state's errors come
solely from this pass; `isValid` is `this.errors.length === 0`. A TypeError
thrown by a group aborts the call. -/
def validate (v : TEIFValidator) : Except String (TEIFValidator × Report) := do
  let errs ← runGroups v.invoice
  return ({ invoice := v.invoice, errors := errs },
    { isValid := errs.length == 0, errors := errs })

/-- The first line item of the example document (line 205). -/
def validLine1 : JSVal := .obj
  [("ItemIdentifier", .str "PRD-001"), ("Description", .str "Laptop"),
   ("Quantity", .num (.fin 2)), ("UnitPrice", .num (.fin 1200)),
   ("LineTotal", .num (.fin 2400))]

/-- The second line item of the example document (line 206). -/
def validLine2 : JSVal := .obj
  [("ItemIdentifier", .str "PRD-002"), ("Description", .str "Printer"),
   ("Quantity", .num (.fin 1)), ("UnitPrice", .num (.fin 600)),
   ("LineTotal", .num (.fin 600))]

/-- The second line item with its unit price replaced by -5 (the negative
unit price scenario; everything else as in the example document). -/
def negativePriceLine : JSVal := .obj
  [("ItemIdentifier", .str "PRD-002"), ("Description", .str "Printer"),
   ("Quantity", .num (.fin 1)), ("UnitPrice", .num (.fin (-5))),
   ("LineTotal", .num (.fin 600))]

/-- The supplier entry of the example document (lines 185 to 192). -/
def supplierPartner : JSVal := .obj
  [("functionCode", .str "I-62"),
   ("Nad", .obj
     [("PartnerIdentifier", .obj [("type", .str "I-01"), ("value", .str "1234567A/B/M/000")]),
      ("PartnerNom", .obj [("value", .str "Tech Solutions SARL")]),
      ("PartnerAdresses", .arr [.obj [("CityName", .str "Tunis"), ("Country", .str "TN")]])])]

/-- The buyer entry of the example document (lines 193 to 200). -/
def buyerPartner : JSVal := .obj
  [("functionCode", .str "I-61"),
   ("Nad", .obj
     [("PartnerIdentifier", .obj [("type", .str "I-01"), ("value", .str "7654321C/D/N/000")]),
      ("PartnerNom", .obj [("value", .str "Alpha Distribution SA")]),
      ("PartnerAdresses", .arr [.obj [("CityName", .str "Sfax"), ("Country", .str "TN")]])])]

/-- The example document of lines 169 to 220, with its line collection as a
parameter (the negative unit price scenario replaces one line and changes
nothing else). -/
def exampleInvoice (lines : List JSVal) : JSVal := .obj
  [("version", .str "2.0"),
   ("controlingAgency", .str "TTN"),
   ("InvoiceHeader", .obj
     [("MessageSenderIdentifier", .obj [("type", .str "I-01"), ("value", .str "1234567A/B/M/000")]),
      ("MessageReceiverIdentifier", .obj [("type", .str "I-01"), ("value", .str "7654321C/D/N/000")])]),
   ("Bgm", .obj
     [("DocumentIdentifier", .str "INV-2025-001"),
      ("DocumentType", .obj [("code", .str "I-11"), ("name", .str "Facture")])]),
   ("Dtm", .arr [.obj
     [("functionCode", .str "I-31"), ("format", .str "DDMMYY"), ("DateText", .str "190825")]]),
   ("PartnerSection", .obj [("PartnerDetails", .arr [supplierPartner, buyerPartner])]),
   ("LinSection", .arr [.obj [("Lin", .arr lines)]]),
   ("InvoiceMoa", .obj [("AmountDetails", .arr
     [.obj [("amountTypeCode", .str "I-176"), ("Amount", .num (.fin 3000))],
      .obj [("amountTypeCode", .str "I-180"), ("Amount", .num (.fin 3570))]])]),
   ("InvoiceTax", .obj
     [("TaxTypeCode", .str "I-1602"), ("TaxRate", .num (.fin 19)),
      ("TaxAmount", .num (.fin 570))])]

/-- Lines 169 to 220: `validInvoiceData`, the fully valid example document. -/
def validInvoiceData : JSVal := exampleInvoice [validLine1, validLine2]

/-- The otherwise-valid document whose second line has `UnitPrice = -5`. -/
def negativePriceDoc : JSVal := exampleInvoice [validLine1, negativePriceLine]

/-- A document whose partner collection contains only the supplier entry. -/
def onlySupplierDoc : JSVal := .obj
  [("PartnerSection", .obj [("PartnerDetails", .arr [supplierPartner])])]

/-- The violations the engine records for `onlySupplierDoc`: every other
group-level presence check fails, and the partner group records only its
length violation. -/
def onlySupplierErrors : List String :=
  ["Root: TEIF version must be '2.0'.",
   "Root: 'controlingAgency' must be 'TTN'.",
   "Structure: 'InvoiceHeader' object is missing.",
   "Body: 'Bgm.DocumentIdentifier' (Invoice ID) is missing.",
   "Body: 'Bgm.DocumentType.code' must be 'I-11' for an invoice.",
   "Body: 'Dtm' entry with functionCode 'I-31' (Issue Date) is missing.",
   "Partners: 'PartnerSection.PartnerDetails' must be an array with at least a supplier and a buyer.",
   "Lines: 'LinSection[0].Lin' must be an array with at least one line item.",
   "Totals: 'InvoiceMoa.AmountDetails' array is missing."]

/-- A document with a present header whose sender identifier value is the
pattern-invalid string `BADID` and whose receiver identifier value is
pattern-valid. -/
def badSenderDoc : JSVal := .obj
  [("InvoiceHeader", .obj
    [("MessageSenderIdentifier", .obj [("value", .str "BADID")]),
     ("MessageReceiverIdentifier", .obj [("value", .str "1234567A/B/M/000")])])]

/-- A line item whose `Quantity` and `UnitPrice` are both NaN. -/
def nanLine : JSVal := .obj
  [("ItemIdentifier", .str "PRD-003"), ("Description", .str "Cable"),
   ("Quantity", .num .nan), ("UnitPrice", .num .nan)]

/-- The nine violations the engine records for the empty document. -/
def emptyDocErrors : List String :=
  ["Root: TEIF version must be '2.0'.",
   "Root: 'controlingAgency' must be 'TTN'.",
   "Structure: 'InvoiceHeader' object is missing.",
   "Body: 'Bgm.DocumentIdentifier' (Invoice ID) is missing.",
   "Body: 'Bgm.DocumentType.code' must be 'I-11' for an invoice.",
   "Body: 'Dtm' entry with functionCode 'I-31' (Issue Date) is missing.",
   "Partners: 'PartnerSection.PartnerDetails' must be an array with at least a supplier and a buyer.",
   "Lines: 'LinSection[0].Lin' must be an array with at least one line item.",
   "Totals: 'InvoiceMoa.AmountDetails' array is missing."]

/-! ## Basic reduction lemmas -/

theorem ok_bind {α β : Type} (a : α) (f : α → Except String β) :
    (Except.ok a >>= f : Except String β) = f a := rfl

theorem pure_eq_ok {α : Type} (a : α) : (pure a : Except String α) = .ok a := rfl

theorem map_ok {α β : Type} (a : α) (f : α → β) :
    (Except.ok a : Except String α).map f = .ok (f a) := rfl

theorem getMem_eq (v : JSVal) (k : String) (h : isNullish v = false) :
    getMem v k = .ok (memAccess v k) := by
  simp [getMem, h]

/-- The computation terminates normally (no TypeError). -/
def okish {α : Type} (e : Except String α) : Prop := ∃ a, e = .ok a

theorem okish_pure {α : Type} (a : α) : okish (pure a : Except String α) := ⟨a, rfl⟩

theorem okish_bind {α β : Type} {e : Except String α} {f : α → Except String β} {a : α}
    (he : e = .ok a) (hf : okish (f a)) : okish (e >>= f) := by
  rw [he]
  exact hf

theorem okish_ite {α : Type} (c : Prop) [Decidable c] {x y : Except String α}
    (hx : okish x) (hy : okish y) : okish (if c then x else y) := by
  split <;> assumption

/-- A first-match scan whose callback looks a key up by plain access
succeeds on a list of non-nullish elements. -/
theorem jsFind_code_ok (key code : String) (xs : List JSVal)
    (h : ∀ x ∈ xs, isNullish x = false) :
    ∃ v, jsFind (fun p => (getMem p key).map (fun w => eqStr w code)) xs = .ok v := by
  induction xs with
  | nil => exact ⟨.undefined, rfl⟩
  | cons x rest ih =>
      have hx : isNullish x = false := h x (by simp)
      obtain ⟨v, hv⟩ := ih (fun y hy => h y (by simp [hy]))
      by_cases hc : eqStr (memAccess x key) code = true
      · refine ⟨x, ?_⟩
        simp only [jsFind, getMem_eq _ _ hx, map_ok, ok_bind]
        rw [if_pos hc]
      · refine ⟨v, ?_⟩
        simp only [jsFind, getMem_eq _ _ hx, map_ok, ok_bind]
        rw [if_neg hc]
        exact hv

/-! ## The class of documents on which the engine cannot fault -/

/-- Every entry of an array value is non-nullish (vacuous for non-arrays). -/
def elemsOk : JSVal → Bool
  | .arr xs => xs.all (fun x => !isNullish x)
  | _ => true

/-- A value on which `v?.find(cb)` with a field-reading callback cannot
throw: nullish, or an array of non-nullish entries. -/
def dtmOk : JSVal → Bool
  | .undefined => true
  | .null => true
  | .arr xs => xs.all (fun x => !isNullish x)
  | _ => false

/-- The documents on which no member access or `find` call of the validator
can hit a nullish base or a missing method: the document itself is
non-nullish, `Dtm` is nullish or an array of non-nullish entries, and the
three other scanned collections have non-nullish entries whenever they are
arrays. -/
def safeDoc (d : JSVal) : Bool :=
  !isNullish d
  && dtmOk (memAccess d "Dtm")
  && elemsOk (optMem (memAccess d "PartnerSection") "PartnerDetails")
  && elemsOk (optMem (optIndex (memAccess d "LinSection") 0) "Lin")
  && elemsOk (optMem (memAccess d "InvoiceMoa") "AmountDetails")

theorem elemsOk_arr {xs : List JSVal} (h : elemsOk (.arr xs) = true) :
    ∀ x ∈ xs, isNullish x = false := by
  intro x hx
  simp only [elemsOk, List.all_eq_true] at h
  simpa using h x hx

theorem jsCallFind_code_ok (key code : String) (v : JSVal) (h : dtmOk v = true) :
    ∃ w, jsCallFind v (fun p => (getMem p key).map (fun u => eqStr u code)) = .ok w := by
  cases v with
  | undefined => exact ⟨.undefined, rfl⟩
  | null => exact ⟨.undefined, rfl⟩
  | arr xs =>
      have hall : ∀ x ∈ xs, isNullish x = false := by
        intro x hx
        simp only [dtmOk, List.all_eq_true] at h
        simpa using h x hx
      exact jsFind_code_ok key code xs hall
  | bool b => simp [dtmOk] at h
  | num n => simp [dtmOk] at h
  | str s => simp [dtmOk] at h
  | obj fs => simp [dtmOk] at h

/-! ## Each rule group terminates normally on safe documents -/

theorem root_ok (d : JSVal) (h : isNullish d = false) : okish (_validateRoot d) := by
  unfold _validateRoot
  exact okish_bind (getMem_eq _ _ h) (okish_bind (getMem_eq _ _ h) (okish_pure _))

theorem header_ok (d : JSVal) (h : isNullish d = false) : okish (_validateHeader d) := by
  unfold _validateHeader
  exact okish_bind (getMem_eq _ _ h) (okish_ite _ (okish_pure _) (okish_pure _))

theorem bgm_ok (d : JSVal) (h : isNullish d = false)
    (hdtm : dtmOk (memAccess d "Dtm") = true) :
    okish (_validateBgmAndDtm d) := by
  obtain ⟨w, hw⟩ := jsCallFind_code_ok "functionCode" "I-31" _ hdtm
  unfold _validateBgmAndDtm
  exact okish_bind (getMem_eq _ _ h)
    (okish_bind (getMem_eq _ _ h) (okish_bind hw (okish_pure _)))

theorem partners_ok (d : JSVal) (h : isNullish d = false)
    (hp : elemsOk (optMem (memAccess d "PartnerSection") "PartnerDetails") = true) :
    okish (_validatePartners d) := by
  unfold _validatePartners
  refine okish_bind (getMem_eq _ _ h) ?_
  beta_reduce
  cases hv : optMem (memAccess d "PartnerSection") "PartnerDetails" with
  | arr ps =>
      rw [hv] at hp
      have hall := elemsOk_arr hp
      obtain ⟨s, hs⟩ := jsFind_code_ok "functionCode" "I-62" ps hall
      obtain ⟨b, hb⟩ := jsFind_code_ok "functionCode" "I-61" ps hall
      exact okish_ite _ (okish_pure _) (okish_bind hs (okish_bind hb (okish_pure _)))
  | undefined => exact okish_pure _
  | null => exact okish_pure _
  | bool b => exact okish_pure _
  | num n => exact okish_pure _
  | str s => exact okish_pure _
  | obj fs => exact okish_pure _

theorem identifierCheck_eq (line : JSVal) (i : Nat) (h : isNullish line = false) :
    identifierCheck line i = .ok (identifierMsgs line i) := by
  unfold identifierCheck identifierMsgs
  simp only [getMem_eq _ _ h, ok_bind, pure_eq_ok]

theorem lineChecks_eq (line : JSVal) (i : Nat) (h : isNullish line = false) :
    lineChecks line i =
      .ok (identifierMsgs line i ++ quantityCheck line i ++ unitPriceCheck line i) := by
  unfold lineChecks
  simp only [identifierCheck_eq _ _ h, ok_bind, pure_eq_ok]

theorem forEachLines_eq (ls : List JSVal) (i : Nat)
    (h : ∀ x ∈ ls, isNullish x = false) :
    forEachLines ls i = .ok (allLineMsgs ls i) := by
  induction ls generalizing i with
  | nil => rfl
  | cons l rest ih =>
      have hl : isNullish l = false := h l (by simp)
      have hr := ih (i + 1) (fun y hy => h y (by simp [hy]))
      unfold forEachLines allLineMsgs
      simp only [lineChecks_eq _ _ hl, ok_bind, hr, pure_eq_ok, List.append_assoc]

theorem lines_ok (d : JSVal) (h : isNullish d = false)
    (hl : elemsOk (optMem (optIndex (memAccess d "LinSection") 0) "Lin") = true) :
    okish (_validateLines d) := by
  unfold _validateLines
  refine okish_bind (getMem_eq _ _ h) ?_
  beta_reduce
  cases hv : optMem (optIndex (memAccess d "LinSection") 0) "Lin" with
  | arr ls =>
      rw [hv] at hl
      exact okish_ite _ (okish_pure _) ⟨_, forEachLines_eq ls 0 (elemsOk_arr hl)⟩
  | undefined => exact okish_pure _
  | null => exact okish_pure _
  | bool b => exact okish_pure _
  | num n => exact okish_pure _
  | str s => exact okish_pure _
  | obj fs => exact okish_pure _

theorem totals_ok (d : JSVal) (h : isNullish d = false)
    (ha : elemsOk (optMem (memAccess d "InvoiceMoa") "AmountDetails") = true) :
    okish (_validateTotals d) := by
  unfold _validateTotals
  refine okish_bind (getMem_eq _ _ h) ?_
  beta_reduce
  cases hv : optMem (memAccess d "InvoiceMoa") "AmountDetails" with
  | arr as =>
      rw [hv] at ha
      obtain ⟨x, hx⟩ := jsFind_code_ok "amountTypeCode" "I-176" as (elemsOk_arr ha)
      obtain ⟨y, hy⟩ := jsFind_code_ok "amountTypeCode" "I-180" as (elemsOk_arr ha)
      exact okish_bind hx (okish_bind hy (okish_bind (getMem_eq _ _ h) (okish_pure _)))
  | undefined => exact okish_pure _
  | null => exact okish_pure _
  | bool b => exact okish_pure _
  | num n => exact okish_pure _
  | str s => exact okish_pure _
  | obj fs => exact okish_pure _

/-- C1 (amended): `validate` terminates normally, converting malformed
substructure into recorded violations, on every document in the `safeDoc`
class: the document itself non-nullish, `Dtm` nullish or an array of
non-nullish entries, and the partner, line and amount collections free of
nullish entries whenever they are arrays. Outside that class the engine can
fault (see the counterexample), so the claim's unrestricted form is false. -/
theorem claimC1 (v : TEIFValidator) (h : safeDoc v.invoice = true) :
    ∃ w r, validate v = .ok (w, r) := by
  unfold safeDoc at h
  simp only [Bool.and_eq_true, Bool.not_eq_true'] at h
  obtain ⟨⟨⟨⟨hd, hdtm⟩, hp⟩, hl⟩, ha⟩ := h
  obtain ⟨e1, h1⟩ := root_ok _ hd
  obtain ⟨e2, h2⟩ := header_ok _ hd
  obtain ⟨e3, h3⟩ := bgm_ok _ hd hdtm
  obtain ⟨e4, h4⟩ := partners_ok _ hd hp
  obtain ⟨e5, h5⟩ := lines_ok _ hd hl
  obtain ⟨e6, h6⟩ := totals_ok _ hd ha
  refine ⟨⟨v.invoice, e1 ++ e2 ++ e3 ++ e4 ++ e5 ++ e6⟩,
    ⟨(e1 ++ e2 ++ e3 ++ e4 ++ e5 ++ e6).length == 0, e1 ++ e2 ++ e3 ++ e4 ++ e5 ++ e6⟩, ?_⟩
  unfold validate runGroups
  rw [h1, ok_bind, h2, ok_bind, h3, ok_bind, h4, ok_bind, h5, ok_bind, h6, ok_bind]
  rfl

/-- C1 counterexample: on the document whose `Dtm` member is the number 5
(non-null, non-array), `validate` throws a TypeError — `Dtm?.find` does not
short-circuit on a non-nullish value and `(5).find` is not a function — so
`validate` does not terminate normally on every document. -/
theorem claimC1_cex :
    validate ⟨.obj [("Dtm", .num (.fin 5))], []⟩ =
      .error "TypeError: find is not a function" := rfl

/-- C1 witness: the empty document is in the safe class and validates
without faulting. -/
theorem claimC1_witness : ∃ w r, validate ⟨JSVal.obj [], []⟩ = .ok (w, r) :=
  claimC1 ⟨JSVal.obj [], []⟩ rfl

theorem error_bind {α β : Type} (e : String) (f : α → Except String β) :
    ((Except.error e : Except String α) >>= f) = .error e := rfl

/-- Dissecting a normal `validate` call: the groups succeeded with exactly
the report's error list, the returned state keeps the document and stores
that list, and the flag is the list's emptiness test. -/
theorem runGroups_of_validate (v w : TEIFValidator) (r : Report)
    (h : validate v = .ok (w, r)) :
    runGroups v.invoice = .ok r.errors ∧ w = ⟨v.invoice, r.errors⟩ ∧
      r.isValid = (r.errors.length == 0) := by
  unfold validate at h
  cases hg : runGroups v.invoice with
  | error e => rw [hg, error_bind] at h; simp at h
  | ok es =>
      rw [hg, ok_bind] at h
      simp only [pure_eq_ok, Except.ok.injEq, Prod.mk.injEq] at h
      obtain ⟨hw, hr⟩ := h
      subst hr
      subst hw
      exact ⟨rfl, rfl, rfl⟩

/-- Running the groups successfully determines the whole call. -/
theorem validate_ok_elim (v : TEIFValidator) (es : List String)
    (hg : runGroups v.invoice = .ok es) :
    validate v = .ok (⟨v.invoice, es⟩, ⟨es.length == 0, es⟩) := by
  unfold validate
  rw [hg, ok_bind]
  rfl

/-- C2 (amended): when the amount-details collection is absent or not an
array, the Totals-and-Tax group records exactly the one amounts-missing
violation and returns early (line 143): the two total-amount searches and
the tax-summary check are all skipped, so the empty document gets the
amounts-missing violation but no tax-missing violation from this group. -/
theorem claimC2 (d : JSVal) (h : isNullish d = false)
    (ha : isArray (optMem (memAccess d "InvoiceMoa") "AmountDetails") = false) :
    _validateTotals d = .ok ["Totals: 'InvoiceMoa.AmountDetails' array is missing."] := by
  unfold _validateTotals
  simp only [getMem_eq _ _ h, ok_bind]
  cases hv : optMem (memAccess d "InvoiceMoa") "AmountDetails" with
  | arr as => rw [hv] at ha; simp [isArray] at ha
  | undefined => rfl
  | null => rfl
  | bool b => rfl
  | num n => rfl
  | str s => rfl
  | obj fs => rfl

/-- C2 counterexample: for the empty document the Totals-and-Tax group
records the amounts-missing violation, but the tax-missing violation is
absent from the report — the group returned before the tax check — refuting
the claim that the tax-summary check still runs. -/
theorem claimC2_cex :
    validate ⟨JSVal.obj [], []⟩ =
        .ok (⟨JSVal.obj [], emptyDocErrors⟩, ⟨false, emptyDocErrors⟩) ∧
      "Totals: 'InvoiceMoa.AmountDetails' array is missing." ∈ emptyDocErrors ∧
      "Tax: 'InvoiceTax' object is missing." ∉ emptyDocErrors :=
  ⟨rfl, by decide, by decide⟩

/-- C2 witness: the empty document's amount collection is absent, and the
Totals-and-Tax group records exactly the amounts-missing violation. -/
theorem claimC2_witness :
    _validateTotals (JSVal.obj []) =
      .ok ["Totals: 'InvoiceMoa.AmountDetails' array is missing."] :=
  claimC2 (JSVal.obj []) rfl rfl

/-- C3 (amended): when the partner collection is an array with fewer than
two entries — in particular a single supplier entry — the group records
exactly the length violation and returns (line 101): the buyer-required
violation is not recorded. -/
theorem claimC3 (d : JSVal) (ps : List JSVal) (h : isNullish d = false)
    (hp : optMem (memAccess d "PartnerSection") "PartnerDetails" = .arr ps)
    (hlen : ps.length < 2) :
    _validatePartners d =
      .ok ["Partners: 'PartnerSection.PartnerDetails' must be an array with at least a supplier and a buyer."] := by
  unfold _validatePartners
  simp only [getMem_eq _ _ h, ok_bind, hp]
  simp [hlen, pure_eq_ok]

/-- C3 counterexample: for the document whose partner collection holds only
the supplier entry, the length violation is recorded but the buyer-required
violation is absent from the returned errors, refuting the claimed
co-occurrence. -/
theorem claimC3_cex :
    validate ⟨onlySupplierDoc, []⟩ =
        .ok (⟨onlySupplierDoc, onlySupplierErrors⟩, ⟨false, onlySupplierErrors⟩) ∧
      "Partners: 'PartnerSection.PartnerDetails' must be an array with at least a supplier and a buyer."
        ∈ onlySupplierErrors ∧
      "Partners: A buyer with functionCode 'I-61' is required." ∉ onlySupplierErrors :=
  ⟨rfl, by decide, by decide⟩

/-- C3 witness: the only-supplier document's partner group records exactly
the length violation. -/
theorem claimC3_witness :
    _validatePartners onlySupplierDoc =
      .ok ["Partners: 'PartnerSection.PartnerDetails' must be an array with at least a supplier and a buyer."] :=
  claimC3 onlySupplierDoc [supplierPartner] rfl rfl (by decide)

/-- C4: every report a `validate` call returns has `isValid = true` exactly
when its `errors` sequence is empty — the flag is computed as the list's
emptiness, so no returned report can have them disagree. -/
theorem claimC4 (v w : TEIFValidator) (r : Report) (h : validate v = .ok (w, r)) :
    r.isValid = true ↔ r.errors = [] := by
  obtain ⟨-, -, hval⟩ := runGroups_of_validate v w r h
  rw [hval]
  simp [List.length_eq_zero]

/-- C4 witness: the valid example document's report has the flag true and
the list empty. -/
theorem claimC4_witness : (true = true ↔ ([] : List String) = []) :=
  claimC4 ⟨validInvoiceData, []⟩ ⟨validInvoiceData, []⟩ ⟨true, []⟩ rfl

/-- C5: line 33 resets the accumulator, so a second `validate` call on the
state a call returned — the document unchanged — returns the identical state
and the identical ordered error sequence: no state leaks across calls. -/
theorem claimC5 (v w : TEIFValidator) (r : Report) (h : validate v = .ok (w, r)) :
    validate w = .ok (w, r) := by
  obtain ⟨hg, hw, hval⟩ := runGroups_of_validate v w r h
  subst hw
  have h2 := validate_ok_elim ⟨v.invoice, r.errors⟩ r.errors hg
  rw [h2, ← hval]

/-- C5 witness: revalidating the state returned for the empty document
reproduces the same report. -/
theorem claimC5_witness :
    validate ⟨JSVal.obj [], emptyDocErrors⟩ =
      .ok (⟨JSVal.obj [], emptyDocErrors⟩, ⟨false, emptyDocErrors⟩) :=
  claimC5 ⟨JSVal.obj [], []⟩ ⟨JSVal.obj [], emptyDocErrors⟩ ⟨false, emptyDocErrors⟩ rfl

/-- C6: the fully valid example document — version `2.0`, agency `TTN`,
pattern-valid sender and receiver identifiers, invoice type code, one
issue-date entry, a fully identified supplier and buyer, two valid lines,
both required totals and the VAT tax code — validates with `isValid = true`
and an empty error sequence. -/
theorem claimC6 :
    validate ⟨validInvoiceData, []⟩ = .ok (⟨validInvoiceData, []⟩, ⟨true, []⟩) := rfl

theorem truthy_str_true {s : String} (h : s ≠ "") : truthy (.str s) = true := by
  simp [truthy, h]

theorem jsTaxIdTest_str (s : String) : jsTaxIdTest (.str s) = taxIdTest s := rfl

theorem display_str (s : String) : display (.str s) = s := rfl

/-- C7: for a document whose header is present and whose sender and
receiver identifier values are present non-empty strings, the Header group
records a format violation naming each value exactly when the value fails
the tax-identifier pattern (seven digits, an uppercase letter, a slash, an
uppercase letter, a slash, an uppercase letter, a slash, three digits). -/
theorem claimC7 (d header sv rv : JSVal) (s r : String)
    (hd : isNullish d = false)
    (hh : memAccess d "InvoiceHeader" = header) (hht : truthy header = true)
    (hs : memAccess header "MessageSenderIdentifier" = sv) (hst : truthy sv = true)
    (hsv : memAccess sv "value" = .str s) (hs0 : s ≠ "")
    (hr : memAccess header "MessageReceiverIdentifier" = rv) (hrt : truthy rv = true)
    (hrv : memAccess rv "value" = .str r) (hr0 : r ≠ "") :
    _validateHeader d = .ok
      ((if taxIdTest s then []
        else ["Header: Sender Tax ID '" ++ s ++ "' has an invalid format."]) ++
       (if taxIdTest r then []
        else ["Header: Receiver Tax ID '" ++ r ++ "' has an invalid format."])) := by
  unfold _validateHeader senderBlock receiverBlock
  simp only [getMem_eq _ _ hd, ok_bind, hh]
  cases hts : taxIdTest s <;> cases htr : taxIdTest r <;>
    simp [hht, hs, hst, hsv, hr, hrt, hrv, hts, htr, pure_eq_ok,
      truthy_str_true hs0, truthy_str_true hr0, jsTaxIdTest_str, display_str] <;>
    rfl

/-- C7 witness: on a document with sender value `BADID` and a pattern-valid
receiver value, the Header group records exactly the sender format
violation naming the offending value. -/
theorem claimC7_witness :
    _validateHeader badSenderDoc = .ok
      ((if taxIdTest "BADID" then []
        else ["Header: Sender Tax ID '" ++ "BADID" ++ "' has an invalid format."]) ++
       (if taxIdTest "1234567A/B/M/000" then []
        else ["Header: Receiver Tax ID '" ++ "1234567A/B/M/000" ++ "' has an invalid format."])) :=
  claimC7 badSenderDoc _ _ _ "BADID" "1234567A/B/M/000"
    rfl rfl rfl rfl rfl rfl (by decide) rfl rfl rfl (by decide)

/-- C8: when the line collection is a non-empty array of (non-nullish) line
records, every line is visited in order regardless of earlier lines'
results and contributes its three independent checks with its 1-based
position (`allLineMsgs`); and the otherwise-valid document whose second
line has `UnitPrice = -5` yields exactly one error, naming line 2 and the
unit-price rule. -/
theorem claimC8 :
    (∀ (d : JSVal) (ls : List JSVal), isNullish d = false →
      optMem (optIndex (memAccess d "LinSection") 0) "Lin" = .arr ls → ls ≠ [] →
      (∀ x ∈ ls, isNullish x = false) →
      _validateLines d = .ok (allLineMsgs ls 0)) ∧
    validate ⟨negativePriceDoc, []⟩ = .ok
      (⟨negativePriceDoc, ["Line 2: 'UnitPrice' must be a non-negative number."]⟩,
       ⟨false, ["Line 2: 'UnitPrice' must be a non-negative number."]⟩) := by
  constructor
  · intro d ls hd hlin hne hel
    unfold _validateLines
    simp only [getMem_eq _ _ hd, ok_bind, hlin]
    have hz : (ls.length == 0) = false := by
      cases ls with
      | nil => exact absurd rfl hne
      | cons a as => rfl
    simp [hz, forEachLines_eq ls 0 hel]
  · rfl

/-- C9: `validate` only reads the stored document — the source never writes
to `this.invoice` — so the state a call returns holds the identical
document tree; by induction the document is unchanged by any number of
calls. -/
theorem claimC9 (v w : TEIFValidator) (r : Report) (h : validate v = .ok (w, r)) :
    w.invoice = v.invoice := by
  obtain ⟨-, hw, -⟩ := runGroups_of_validate v w r h
  rw [hw]

/-- C9 witness: validating the empty document returns a state holding the
same document. -/
theorem claimC9_witness :
    (TEIFValidator.mk (JSVal.obj []) emptyDocErrors).invoice =
      (TEIFValidator.mk (JSVal.obj []) []).invoice :=
  claimC9 ⟨JSVal.obj [], []⟩ ⟨JSVal.obj [], emptyDocErrors⟩ ⟨false, emptyDocErrors⟩ rfl

/-- C10: a line whose `Quantity` is NaN produces no quantity violation and
a line whose `UnitPrice` is NaN produces no unit-price violation — `typeof
NaN === "number"` holds and NaN compares false against 0 — so the
Line-Items group accepts a document whose only line carries an identifier,
a description and NaN in both numeric fields. -/
theorem claimC10 :
    (∀ (line : JSVal) (i : Nat), memAccess line "Quantity" = .num .nan →
      quantityCheck line i = []) ∧
    (∀ (line : JSVal) (i : Nat), memAccess line "UnitPrice" = .num .nan →
      unitPriceCheck line i = []) ∧
    _validateLines (.obj [("LinSection", .arr [.obj [("Lin", .arr [nanLine])]])]) = .ok [] := by
  refine ⟨?_, ?_, rfl⟩
  · intro line i hq
    simp [quantityCheck, hq, isNumber, le0]
  · intro line i hup
    simp [unitPriceCheck, hup, isNumber, lt0]

end TEIF
